import Mathlib

/-!
Shallow embedding of the conversation/group synchronization and
event-streaming subsystem of the xmtp-react-native repository.

The embedded code:
  * `Conversations` (src/unnamed/part_001): list/stream facade with the
    shared `known` map, the `subscriptions` registry and the per-stream
    emitter listeners;
  * `Group` (src/src/lib/Group.ts): send/prepare with JS codecs, consent
    state, per-group message stream;
  * `GroupWrapper.encodeToObj` / `ConversationParamsWrapper`
    (src/unnamed/part_002): field-selected entity encoding.

Stateful TypeScript/Kotlin code is embedded as explicit state passing;
every effectful call into the native `XMTPModule` / `XMTP` gateway is
recorded in a trace of `GatewayCall`s, and listener bodies are embedded
as pure functions from (client identity, state, event) to (new state,
delivery outcome). Application callbacks that may reject are embedded as
functions into `Except String Unit`.
-/

namespace XmtpModel

/-- Event categories used as keys of the `subscriptions` registry
(`EventTypes` in the source). -/
inductive EventType where
  | conversation
  | group
  | conversationV3
  | conversationContainer
  | message
  | allGroupMessage
  | allConversationMessages
  | conversationMessage
  deriving DecidableEq, Repr

/-- Calls into the native gateway (`XMTPModule.*` / `XMTP.*`). Arguments
that matter to the claims are kept; opaque payloads are strings. -/
inductive GatewayCall where
  | subscribeToConversations (inboxId : String)
  | unsubscribeFromConversations (inboxId : String)
  | subscribeToAll (inboxId : String)
  | subscribeToAllMessages (inboxId : String) (includeGroups : Bool)
  | unsubscribeFromAllMessages (inboxId : String)
  | subscribeToGroups (inboxId : String)
  | unsubscribeFromGroups (inboxId : String)
  | listV3Conversations
  | listGroupsCall
  | listAllCall
  | updateConversationConsent (installationId : String) (conversationId : String)
      (state : String)
  | conversationConsentState (installationId : String) (conversationId : String)
  | sendWithContentType (installationId : String) (conversationId : String)
      (content : String) (codec : String)
  | prepareMessageWithContentType (installationId : String)
      (conversationId : String) (content : String) (codec : String)
  | subscribeToMessages (installationId : String) (conversationId : String)
  | unsubscribeFromMessages (installationId : String) (conversationId : String)
  deriving DecidableEq, Repr

/-- Look up the entry stored for a category in an association list
(JS `this.subscriptions[key]`, `undefined` when absent). -/
def lookupSub (subs : List (EventType × Nat)) (k : EventType) : Option Nat :=
  match subs with
  | [] => none
  | (k', v) :: rest => if k' = k then some v else lookupSub rest k

/-- Remove the entry stored for a category
(JS `delete this.subscriptions[key]`). -/
def dropSub (subs : List (EventType × Nat)) (k : EventType) :
    List (EventType × Nat) :=
  match subs with
  | [] => []
  | (k', v) :: rest =>
      if k' = k then dropSub rest k else (k', v) :: dropSub rest k

/-- Store the handle for a category, replacing any handle already stored
for it (JS object assignment `this.subscriptions[key] = subscription`). -/
def storeSub (subs : List (EventType × Nat)) (k : EventType) (v : Nat) :
    List (EventType × Nat) :=
  (k, v) :: dropSub subs k

/-- Remove one registered listener from the emitter's registry
(React Native `subscription.remove()`); listener handles are unique. -/
def removeListener (em : List (EventType × Nat)) (k : EventType) (lid : Nat) :
    List (EventType × Nat) :=
  match em with
  | [] => []
  | e :: rest =>
      if e = (k, lid) then removeListener rest k lid
      else e :: removeListener rest k lid

/-- The mutable state of a `Conversations` instance that the claims are
about: the single `known` map shared by every stream category (a JS
object whose values are only ever set to `true`, so the list of its keys
is a faithful embedding), the `subscriptions` registry mapping a category
to the subscription handle currently stored for it, the emitter's
listener registry (several listeners may be registered for one
category), and a counter producing fresh listener handles. -/
structure ConvState where
  known : List String
  subscriptions : List (EventType × Nat)
  emitter : List (EventType × Nat)
  nextListenerId : Nat
  deriving DecidableEq, Repr

/-- A freshly constructed `Conversations` instance: empty known map,
empty registries. -/
def ConvState.init : ConvState := ⟨[], [], [], 0⟩

/-- An inbound conversation-category event pushed by the native side:
the target client's inbox id, the conversation payload's identity and
its `version === ConversationVersion.GROUP` tag. Consumed by the
`stream` and `streamAll` listeners. -/
structure ConvEvent where
  inboxId : String
  topic : String
  isGroup : Bool
  deriving DecidableEq, Repr

/-- An inbound all-messages event: the target client's inbox id and the
message id (the key the message streams dedup on). -/
structure MsgEvent where
  inboxId : String
  messageId : String
  deriving DecidableEq, Repr

/-- Outcome of one infallible listener invocation: the updated `known`
map and whether the application callback was invoked for the event. -/
structure Delivery where
  known : List String
  invoked : Bool
  deriving DecidableEq, Repr

/-- Listener registered by `Conversations.stream`
(src/unnamed/part_001 lines 325-341): drop events whose `inboxId`
differs from the client's, drop events whose `topic` is already in the
shared `known` map, otherwise mark the topic known and invoke the
callback with a new `Conversation`. -/
def streamListener (clientInboxId : String) (known : List String)
    (ev : ConvEvent) : Delivery :=
  if ev.inboxId ≠ clientInboxId then ⟨known, false⟩
  else if known.contains ev.topic then ⟨known, false⟩
  else ⟨ev.topic :: known, true⟩

/-- Listener registered by `Conversations.streamAll`
(src/unnamed/part_001 lines 363-393): same inbox filter and `known`
check keyed by the container's `topic`; on pass the callback is invoked
with a `Group` or a `Conversation` according to the version tag (it is
invoked in both branches). -/
def streamAllListener (clientInboxId : String) (known : List String)
    (ev : ConvEvent) : Delivery :=
  if ev.inboxId ≠ clientInboxId then ⟨known, false⟩
  else if known.contains ev.topic then ⟨known, false⟩
  else ⟨ev.topic :: known, true⟩

/-- Listener registered by `Conversations.streamAllMessages`
(src/unnamed/part_001 lines 416-432), with the application callback
embedded as a fallible function on the message id: inbox filter, then
the `known` check keyed by `message.id` against the shared map; on pass
the id is marked known and `await callback(...)` runs with NO try/catch
around it, so a rejection propagates out of the invocation. The result
is `ok true` when the callback was invoked and returned, `ok false` when
the event was filtered, `error e` when the callback rejected. -/
def streamAllMessagesListenerE (clientInboxId : String) (known : List String)
    (cb : String → Except String Unit) (ev : MsgEvent) :
    List String × Except String Bool :=
  if ev.inboxId ≠ clientInboxId then (known, Except.ok false)
  else if known.contains ev.messageId then (known, Except.ok false)
  else (ev.messageId :: known, (cb ev.messageId).map (fun _ => true))

/-- The emitter dispatching a sequence of all-messages events to the one
registered `streamAllMessages` listener: each pushed event is an
independent invocation of the listener; nothing removes the listener
when an invocation rejects. Returns the final `known` map and the
per-invocation outcomes. -/
def processAllMessages (clientInboxId : String)
    (cb : String → Except String Unit) (known : List String) :
    List MsgEvent → List String × List (Except String Bool)
  | [] => (known, [])
  | ev :: rest =>
      let r := streamAllMessagesListenerE clientInboxId known cb ev
      let rr := processAllMessages clientInboxId cb r.1 rest
      (rr.1, r.2 :: rr.2)

/-- The emitter dispatching ONE conversation event to `n` simultaneously
registered `stream` listeners in registration order (the situation
created by starting `stream` twice without cancelling): all listeners
share the instance's one `known` map. Returns the final `known` map and
how many listeners invoked their callback for the event. -/
def dispatchConv (clientInboxId : String) (known : List String) (n : Nat)
    (ev : ConvEvent) : List String × Nat :=
  match n with
  | 0 => (known, 0)
  | Nat.succ m =>
      let d := streamListener clientInboxId known ev
      let rest := dispatchConv clientInboxId d.known m ev
      (rest.1, (if d.invoked then 1 else 0) + rest.2)

/-- `Conversations.listConversations` (src/unnamed/part_001 lines
159-165): forwards to `XMTPModule.listV3Conversations` and returns the
gateway's answer (a list of conversation topics); it does not touch the
`known` map. -/
def listConversations (s : ConvState) (result : List String) :
    ConvState × List GatewayCall × List String :=
  (s, [GatewayCall.listV3Conversations], result)

/-- `Conversations.listAll` (src/unnamed/part_001 lines 143-151): calls
`XMTPModule.listAll`, then marks every returned container's `topic` in
the `known` map (`this.known[c.topic] = true` in a for loop), and
returns the result. -/
def listAll (s : ConvState) (result : List String) :
    ConvState × List GatewayCall × List String :=
  ({ s with known := result.foldl (fun acc t => t :: acc) s.known },
    [GatewayCall.listAllCall], result)

/-- `Conversations.listGroups` (src/unnamed/part_001 lines 67-79): calls
`XMTPModule.listGroups`, then marks every returned group's `id` known. -/
def listGroups (s : ConvState) (result : List String) :
    ConvState × List GatewayCall × List String :=
  ({ s with known := result.foldl (fun acc i => i :: acc) s.known },
    [GatewayCall.listGroupsCall], result)

/-- `Conversations.stream` (src/unnamed/part_001 lines 319-344): issues
the gateway subscribe call, registers a fresh emitter listener for the
`Conversation` category, and stores its handle in `subscriptions`
(overwriting whatever handle was stored for that category, without
removing the previously registered listener). -/
def stream (s : ConvState) (inboxId : String) : ConvState × List GatewayCall :=
  let lid := s.nextListenerId
  ({ s with
      emitter := s.emitter ++ [(EventType.conversation, lid)],
      subscriptions := storeSub s.subscriptions EventType.conversation lid,
      nextListenerId := lid + 1 },
    [GatewayCall.subscribeToConversations inboxId])

/-- The source's default for `streamAllMessages`' `includeGroups`
parameter (src/unnamed/part_001 line 411: `includeGroups: boolean =
false`). -/
def streamAllMessagesDefaultIncludeGroups : Bool := false

/-- `Conversations.streamAllMessages` (src/unnamed/part_001 lines
409-435): issues `subscribeToAllMessages(inboxId, includeGroups)`,
registers a fresh emitter listener for the `Message` category and stores
its handle. -/
def streamAllMessages (s : ConvState) (inboxId : String)
    (includeGroups : Bool) : ConvState × List GatewayCall :=
  let lid := s.nextListenerId
  ({ s with
      emitter := s.emitter ++ [(EventType.message, lid)],
      subscriptions := storeSub s.subscriptions EventType.message lid,
      nextListenerId := lid + 1 },
    [GatewayCall.subscribeToAllMessages inboxId includeGroups])

/-- A call of `streamAllMessages` that leaves `includeGroups` at the
declaration's default, as in `streamAllMessages(cb)`. -/
def streamAllMessagesDefault (s : ConvState) (inboxId : String) :
    ConvState × List GatewayCall :=
  streamAllMessages s inboxId streamAllMessagesDefaultIncludeGroups

/-- `Conversations.cancelStream` (src/unnamed/part_001 lines 534-540):
when a subscription handle is stored for the `Conversation` category,
remove that listener from the emitter and delete the registry entry;
then, UNCONDITIONALLY, issue the gateway
`unsubscribeFromConversations` call. -/
def cancelStream (s : ConvState) (inboxId : String) :
    ConvState × List GatewayCall :=
  let s' :=
    match lookupSub s.subscriptions EventType.conversation with
    | some lid =>
        { s with
            emitter := removeListener s.emitter EventType.conversation lid,
            subscriptions := dropSub s.subscriptions EventType.conversation }
    | none => s
  (s', [GatewayCall.unsubscribeFromConversations inboxId])

/-- `Conversations.cancelStreamAllMessages` (src/unnamed/part_001 lines
564-570): same shape for the `Message` category; the gateway
`unsubscribeFromAllMessages` call is again outside the guard. -/
def cancelStreamAllMessages (s : ConvState) (inboxId : String) :
    ConvState × List GatewayCall :=
  let s' :=
    match lookupSub s.subscriptions EventType.message with
    | some lid =>
        { s with
            emitter := removeListener s.emitter EventType.message lid,
            subscriptions := dropSub s.subscriptions EventType.message }
    | none => s
  (s', [GatewayCall.unsubscribeFromAllMessages inboxId])

/-- The `Group` entity (src/src/lib/Group.ts lines 31-64): the fields
copied from `GroupParams` by the constructor. Identities and consent are
opaque strings. -/
structure Group where
  clientInstallationId : String
  id : String
  createdAt : Nat
  topic : String
  name : String
  isGroupActive : Bool
  addedByInboxId : String
  imageUrlSquare : String
  description : String
  state : String
  deriving DecidableEq, Repr

/-- `Group.updateConsent` (src/src/lib/Group.ts lines 660-666): a single
gateway call `updateConversationConsent(installationId, id, state)`; the
method returns nothing and performs no further call. -/
def Group.updateConsent (g : Group) (state : String) :
    List GatewayCall × Unit :=
  ([GatewayCall.updateConversationConsent g.clientInstallationId g.id state],
    ())

/-- `Group.consentState` (src/src/lib/Group.ts lines 653-658): a single
gateway call `conversationConsentState(installationId, id)` whose answer
is the authoritative remote consent for the conversation, embedded as an
oracle `gateway : conversationId → consent`. -/
def Group.consentState (g : Group) (gateway : String → String) :
    List GatewayCall × String :=
  ([GatewayCall.conversationConsentState g.clientInstallationId g.id],
    gateway g.id)

/-- The consent-updating caller in the sample UI (src/unnamed/part_000
lines 105-109, `denyGroup`): `await group.updateConsent('denied')`
followed by `await group.consentState()`; the fetched state is what the
caller observes and renders. -/
def denyGroup (g : Group) (gateway : String → String) :
    List GatewayCall × String :=
  let u := g.updateConsent "denied"
  let f := g.consentState gateway
  (u.1 ++ f.1, f.2)

/-- A content type id (src/src/lib/Group.ts / XMTP.ContentTypeId). -/
structure ContentTypeId where
  authorityId : String
  typeId : String
  versionMajor : Nat
  versionMinor : Nat
  deriving DecidableEq, Repr

/-- The registry key built in `_sendWithJSCodec` / `_prepareWithJSCodec`
(src/src/lib/Group.ts lines 114-117):
`authorityId/typeId:versionMajor.versionMinor`. -/
def codecKey (c : ContentTypeId) : String :=
  c.authorityId ++ "/" ++ c.typeId ++ ":" ++ toString c.versionMajor ++ "."
    ++ toString c.versionMinor

/-- Lookup in `Client.codecRegistry`, a string-keyed object mapping a
content-type key to a registered codec. -/
def lookupCodec (registry : List (String × String)) (key : String) :
    Option String :=
  match registry with
  | [] => none
  | (k, c) :: rest => if k = key then some c else lookupCodec rest key

/-- `Group._sendWithJSCodec` (src/src/lib/Group.ts lines 110-129): look
the content type up in the codec registry; when absent, throw
`no codec found` BEFORE any gateway call (empty trace); when present,
issue the `sendWithContentType` gateway call. -/
def Group.sendWithJSCodec (g : Group) (registry : List (String × String))
    (content : String) (ct : ContentTypeId) :
    List GatewayCall × Except String Unit :=
  match lookupCodec registry (codecKey ct) with
  | none => ([], Except.error ("no codec found for: " ++ codecKey ct))
  | some codec =>
      ([GatewayCall.sendWithContentType g.clientInstallationId g.id content
          codec],
        Except.ok ())

/-- `Group._prepareWithJSCodec` (src/src/lib/Group.ts lines 164-183):
identical lookup and failure mode; on success the gateway call is
`prepareMessageWithContentType`. -/
def Group.prepareWithJSCodec (g : Group) (registry : List (String × String))
    (content : String) (ct : ContentTypeId) :
    List GatewayCall × Except String Unit :=
  match lookupCodec registry (codecKey ct) with
  | none => ([], Except.error ("no codec found for: " ++ codecKey ct))
  | some codec =>
      ([GatewayCall.prepareMessageWithContentType g.clientInstallationId g.id
          content codec],
        Except.ok ())

/-- An inbound per-group message event (src/src/lib/Group.ts lines
250-258): the target client's installation id, the conversation id and
the message payload. -/
structure ConvMsgEvent where
  installationId : String
  conversationId : String
  message : String
  deriving DecidableEq, Repr

/-- Listener registered by `Group.streamMessages` (src/src/lib/Group.ts
lines 244-273), with the application callback embedded as a fallible
function on the message payload: drop events for another installation,
drop events for another conversation, otherwise run
`await callback(...)` with NO try/catch around it, so a rejection
propagates out of the invocation. -/
def Group.streamMessagesListener (g : Group)
    (cb : String → Except String Unit) (ev : ConvMsgEvent) :
    Except String Bool :=
  if ev.installationId ≠ g.clientInstallationId then Except.ok false
  else if ev.conversationId ≠ g.id then Except.ok false
  else (cb ev.message).map (fun _ => true)

/-- The emitter dispatching a sequence of per-group message events to
the one registered `Group.streamMessages` listener: each event is an
independent invocation; nothing removes the listener when an invocation
rejects. -/
def processMessageEvents (g : Group) (cb : String → Except String Unit)
    (events : List ConvMsgEvent) : List (Except String Bool) :=
  events.map (g.streamMessagesListener cb)

/-- Recognizer for the consent re-fetch gateway call. -/
def isConsentFetchCall (c : GatewayCall) : Bool :=
  match c with
  | GatewayCall.conversationConsentState _ _ => true
  | _ => false

/-- A concrete `Group` instance used to evaluate the model. -/
def gExample : Group :=
  ⟨"inst1", "g1", 0, "topic1", "crew", true, "adder", "", "", "unknown"⟩

/-- A concrete content type used to evaluate the codec path. -/
def ctExample : ContentTypeId := ⟨"xmtp.org", "text", 1, 0⟩

/-- A concrete application callback that rejects on message "m1" and
resolves on every other message. -/
def cbBoom : String → Except String Unit :=
  fun m => if m = "m1" then Except.error "boom" else Except.ok ()

end XmtpModel

namespace Wrapper

/-- Android `ConsentState` (org.xmtp.android.library.ConsentState). -/
inductive ConsentState where
  | allowed
  | denied
  | unknown
  deriving DecidableEq, Repr

/-- `consentStateToString` (src/unnamed/part_002 lines 52-58). -/
def consentStateToString (state : ConsentState) : String :=
  match state with
  | ConsentState.allowed => "allowed"
  | ConsentState.denied => "denied"
  | ConsentState.unknown => "unknown"

/-- A JSON-ish value of the encoded map (src/unnamed/part_002):
strings, numbers, booleans and the encoded last message. -/
inductive JValue where
  | str (s : String)
  | num (n : Nat)
  | bool (b : Bool)
  | msg (m : String)
  deriving DecidableEq, Repr

/-- `ConversationParamsWrapper` (src/unnamed/part_002 lines 60-68): the
per-field selection flags. -/
structure ConversationParamsWrapper where
  isActive : Bool
  addedByInboxId : Bool
  name : Bool
  imageUrlSquare : Bool
  description : Bool
  consentState : Bool
  lastMessage : Bool
  deriving DecidableEq, Repr

/-- The constructor's default flags (src/unnamed/part_002 lines 61-67):
every field defaults to `true` except `lastMessage`, which defaults to
`false`. -/
def defaultParams : ConversationParamsWrapper :=
  ⟨true, true, true, true, true, true, false⟩

/-- The Android `Group` as consumed by `encodeToObj`: the accessed
fields, plus its local message list (`messages(limit = 1).firstOrNull()`
is the head of that list). -/
structure KGroup where
  id : String
  createdAt : Nat
  topic : String
  isActive : Bool
  addedByInboxId : String
  name : String
  imageUrlSquare : String
  description : String
  consentState : ConsentState
  messages : List String
  deriving DecidableEq, Repr

/-- `GroupWrapper.encodeToObj` (src/unnamed/part_002 lines 12-38):
`buildMap` always writes clientAddress, id, createdAt, version and
topic; each optional field is written only when its flag is set;
`lastMessage` is written only when its flag is set AND the group has at
least one message. -/
def encodeToObj (clientAddress : String) (group : KGroup)
    (groupParams : ConversationParamsWrapper) : List (String × JValue) :=
  [("clientAddress", JValue.str clientAddress),
    ("id", JValue.str group.id),
    ("createdAt", JValue.num group.createdAt),
    ("version", JValue.str "GROUP"),
    ("topic", JValue.str group.topic)]
  ++ (if groupParams.isActive then [("isActive", JValue.bool group.isActive)]
      else [])
  ++ (if groupParams.addedByInboxId then
        [("addedByInboxId", JValue.str group.addedByInboxId)]
      else [])
  ++ (if groupParams.name then [("name", JValue.str group.name)] else [])
  ++ (if groupParams.imageUrlSquare then
        [("imageUrlSquare", JValue.str group.imageUrlSquare)]
      else [])
  ++ (if groupParams.description then
        [("description", JValue.str group.description)]
      else [])
  ++ (if groupParams.consentState then
        [("consentState",
          JValue.str (consentStateToString group.consentState))]
      else [])
  ++ (if groupParams.lastMessage then
        match group.messages.head? with
        | some m => [("lastMessage", JValue.msg m)]
        | none => []
      else [])

/-- The keys present in an encoded map. -/
def keysOf (l : List (String × JValue)) : List String := l.map Prod.fst

/-- A concrete Android group with an empty local message list. -/
def kgNoMessages : KGroup :=
  ⟨"g1", 5, "t1", true, "adder", "crew", "", "", ConsentState.allowed, []⟩

/-- Field-selection flags requesting every optional field, including
`lastMessage`. -/
def paramsWithLast : ConversationParamsWrapper :=
  ⟨true, true, true, true, true, true, true⟩

end Wrapper

open XmtpModel

/-- C1: delivering the same identity on two different categories.
The source keeps ONE `known` map shared by every stream category: after
the `stream` listener delivers topic t (marking it known), the
`streamAll` listener SUPPRESSES the same topic, so the claim that both
categories' callbacks fire is false at this concrete input. -/
theorem c1_counterexample :
    (streamListener "A" [] ⟨"A", "t", false⟩).invoked = true ∧
    (streamAllListener "A"
        (streamListener "A" [] ⟨"A", "t", false⟩).known
        ⟨"A", "t", true⟩).invoked = false := by
  decide

/-- C1 (amended): dedup is keyed on the event's identity in a single
map shared across categories. For an identity x not yet known: a first
delivery on the `stream` category invokes the callback; afterwards, a
redelivery of x on the SAME category is suppressed, and a delivery of x
on the DIFFERENT `streamAll` category is suppressed too (because both
categories consult the one shared map). -/
theorem c1_shared_known_dedup (clientInboxId x : String) (known : List String)
    (hx : known.contains x = false) :
    (streamListener clientInboxId known ⟨clientInboxId, x, false⟩).invoked
        = true ∧
    (streamListener clientInboxId
        (streamListener clientInboxId known ⟨clientInboxId, x, false⟩).known
        ⟨clientInboxId, x, false⟩).invoked = false ∧
    (streamAllListener clientInboxId
        (streamListener clientInboxId known ⟨clientInboxId, x, false⟩).known
        ⟨clientInboxId, x, true⟩).invoked = false := by
  have hx' : x ∉ known := by simpa using hx
  simp only [streamListener, streamAllListener]
  simp [hx']

/-- C1 witness: the amended theorem at a concrete input. -/
theorem c1_shared_known_dedup_witness :
    ([] : List String).contains "t" = false ∧
    ((streamListener "A" [] ⟨"A", "t", false⟩).invoked = true ∧
      (streamListener "A" (streamListener "A" [] ⟨"A", "t", false⟩).known
          ⟨"A", "t", false⟩).invoked = false ∧
      (streamAllListener "A" (streamListener "A" [] ⟨"A", "t", false⟩).known
          ⟨"A", "t", true⟩).invoked = false) :=
  ⟨by decide, c1_shared_known_dedup "A" "t" [] (by decide)⟩

/-- Accumulating a list by repeated cons is reversal onto the
accumulator. -/
theorem foldl_cons_eq (l acc : List String) :
    l.foldl (fun a t => t :: a) acc = l.reverse ++ acc := by
  induction l generalizing acc with
  | nil => simp
  | cons h t ih => simp [List.foldl_cons, ih]

/-- C2: `listConversations` does NOT populate the `known` map (unlike
`listGroups` and `listAll`, its body has no marking loop), so a
`streamAll` event for a conversation that `listConversations` just
returned DOES invoke the stream callback: the claim is false at this
concrete input. -/
theorem c2_counterexample :
    (listConversations ConvState.init ["tA"]).1.known = [] ∧
    (streamAllListener "A" (listConversations ConvState.init ["tA"]).1.known
        ⟨"A", "tA", true⟩).invoked = true := by
  decide

/-- C2 (amended): it is `listAll` (and `listGroups`), not
`listConversations`, that populates the shared `known` map; after
`listAll` has returned a conversation, a subsequent `streamAll` event
carrying the same topic does not invoke the stream callback. -/
theorem c2_listAll_suppresses_streamAll (clientInboxId : String)
    (s : ConvState) (result : List String) (ev : ConvEvent)
    (hmem : ev.topic ∈ result) :
    (streamAllListener clientInboxId (listAll s result).1.known ev).invoked
      = false := by
  have hmem' : ev.topic ∈ (listAll s result).1.known := by
    simp only [listAll, foldl_cons_eq, List.mem_append, List.mem_reverse]
    exact Or.inl hmem
  by_cases hin : ev.inboxId = clientInboxId
  · simp [streamAllListener, hin, hmem']
  · simp [streamAllListener, hin]

/-- C2 witness: the amended theorem at a concrete input. -/
theorem c2_listAll_suppresses_streamAll_witness :
    "tA" ∈ ["tA"] ∧
    (streamAllListener "A" (listAll ConvState.init ["tA"]).1.known
        ⟨"A", "tA", true⟩).invoked = false :=
  ⟨by decide,
    c2_listAll_suppresses_streamAll "A" ConvState.init ["tA"]
      ⟨"A", "tA", true⟩ (by decide)⟩

/-- C3: `Group.updateConsent` performs exactly one gateway call — the
consent mutation — and returns nothing: its trace contains no
`conversationConsentState` re-fetch, so the claim that `updateConsent`
itself re-fetches the post-write state and returns it is false at this
concrete input. -/
theorem c3_counterexample :
    (Group.updateConsent gExample "denied").1
        = [GatewayCall.updateConversationConsent "inst1" "g1" "denied"] ∧
    (Group.updateConsent gExample "denied").1.any isConsentFetchCall
        = false := by
  decide

/-- C3 (amended): `updateConsent` only sends the mutation (one gateway
call, no local assumption of the target and no re-fetch); the
authoritative post-write state is obtained by a separate
`consentState()` gateway fetch, and the sample caller `denyGroup`
performs exactly update-then-fetch and observes the gateway's
authoritative answer as its result. -/
theorem c3_caller_refetches (g : Group) (gateway : String → String) :
    denyGroup g gateway
      = ([GatewayCall.updateConversationConsent g.clientInstallationId g.id
            "denied",
          GatewayCall.conversationConsentState g.clientInstallationId g.id],
          gateway g.id) := rfl

/-- Dropping a category's registry entry makes lookup for that category
fail. -/
theorem lookupSub_dropSub (subs : List (EventType × Nat)) (k : EventType) :
    lookupSub (dropSub subs k) k = none := by
  induction subs with
  | nil => rfl
  | cons p rest ih =>
      obtain ⟨k', v⟩ := p
      by_cases h : k' = k
      · simp [dropSub, h, ih]
      · simp [dropSub, lookupSub, h, ih]

/-- A second `cancelStream` leaves the state unchanged. -/
theorem cancelStream_state_idem (s : ConvState) (inboxId : String) :
    (cancelStream (cancelStream s inboxId).1 inboxId).1
      = (cancelStream s inboxId).1 := by
  cases h : lookupSub s.subscriptions EventType.conversation with
  | none => simp [cancelStream, h]
  | some lid => simp [cancelStream, h, lookupSub_dropSub]

/-- A second `cancelStreamAllMessages` leaves the state unchanged. -/
theorem cancelStreamAllMessages_state_idem (s : ConvState)
    (inboxId : String) :
    (cancelStreamAllMessages (cancelStreamAllMessages s inboxId).1 inboxId).1
      = (cancelStreamAllMessages s inboxId).1 := by
  cases h : lookupSub s.subscriptions EventType.message with
  | none => simp [cancelStreamAllMessages, h]
  | some lid => simp [cancelStreamAllMessages, h, lookupSub_dropSub]

/-- C4: two consecutive cancels issue TWO gateway unsubscribe calls (the
gateway call sits outside the `if` guard), so the claim that the second
call performs no unsubscribe side effect beyond the first call's single
gateway call is false at this concrete input. -/
theorem c4_counterexample :
    (cancelStream (stream ConvState.init "A").1 "A").2
        ++ (cancelStream (cancelStream (stream ConvState.init "A").1 "A").1
              "A").2
      = [GatewayCall.unsubscribeFromConversations "A",
          GatewayCall.unsubscribeFromConversations "A"] := by
  decide

/-- C4 (amended): cancelling twice produces no error and the second call
leaves the state unchanged — the local listener is removed and the
registry entry dropped at most once — but each call unconditionally
issues the gateway unsubscribe call, so the second call repeats that
(idempotent) gateway call. Holds for both `cancelStream` and
`cancelStreamAllMessages`. -/
theorem c4_cancel_twice (s : ConvState) (inboxId : String) :
    (cancelStream (cancelStream s inboxId).1 inboxId).1
        = (cancelStream s inboxId).1 ∧
    (cancelStream (cancelStream s inboxId).1 inboxId).2
        = [GatewayCall.unsubscribeFromConversations inboxId] ∧
    (cancelStreamAllMessages (cancelStreamAllMessages s inboxId).1 inboxId).1
        = (cancelStreamAllMessages s inboxId).1 ∧
    (cancelStreamAllMessages (cancelStreamAllMessages s inboxId).1 inboxId).2
        = [GatewayCall.unsubscribeFromAllMessages inboxId] :=
  ⟨cancelStream_state_idem s inboxId, rfl,
    cancelStreamAllMessages_state_idem s inboxId, rfl⟩

/-- C10: `streamAllMessages` called without an explicit `includeGroups`
argument subscribes with `includeGroups = false` (the declaration's
default), so group messages are excluded from the all-messages stream
unless the caller opts in. -/
theorem c10_default_excludes_groups (s : ConvState) (inboxId : String) :
    (streamAllMessagesDefault s inboxId).2
      = [GatewayCall.subscribeToAllMessages inboxId false] := rfl

/-- Once an event's topic is in the shared `known` map, no number of
simultaneously registered `stream` listeners delivers it. -/
theorem dispatchConv_suppressed (c : String) (known : List String) (n : Nat)
    (ev : ConvEvent) (hk : known.contains ev.topic = true) :
    dispatchConv c known n ev = (known, 0) := by
  induction n with
  | zero => rfl
  | succ m ih =>
      have hk' : ev.topic ∈ known := by simpa using hk
      have hd : streamListener c known ev = ⟨known, false⟩ := by
        unfold streamListener
        by_cases h : ev.inboxId = c
        · simp [h, hk']
        · simp [h]
      simp only [dispatchConv, hd]
      simp [ih]

/-- C5: starting `stream` while a `stream` subscription is already
active is neither rejected nor auto-cancelled: the second start returns
normally, registers a second emitter listener, and the registry entry
now points at the second handle while the FIRST listener (handle 0) is
still registered — the existing subscription was not cancelled. The
claim that the conflict is explicitly rejected or resolved by
auto-cancel is false at this concrete input. -/
theorem c5_counterexample :
    (stream (stream ConvState.init "A").1 "A").1.emitter
        = [(EventType.conversation, 0), (EventType.conversation, 1)] ∧
    lookupSub (stream (stream ConvState.init "A").1 "A").1.subscriptions
        EventType.conversation = some 1 := by
  decide

/-- C5 (amended): a second `stream` start for the already-active
category is silently accepted: it leaks the first listener (both
listeners stay registered on the emitter) and only overwrites the
registry handle. Nevertheless, because all the leaked listeners consult
the instance's one shared `known` map and the check-and-mark runs before
any await, a conversation event with a fresh topic invokes the callback
exactly once across any positive number of simultaneously registered
`stream` listeners. -/
theorem c5_second_stream_leaks_but_dedup_holds (s : ConvState)
    (inboxId clientInboxId : String) (known : List String) (n : Nat)
    (ev : ConvEvent) (hn : 0 < n) (hin : ev.inboxId = clientInboxId)
    (hk : known.contains ev.topic = false) :
    (stream (stream s inboxId).1 inboxId).1.emitter
        = s.emitter ++ [(EventType.conversation, s.nextListenerId),
            (EventType.conversation, s.nextListenerId + 1)] ∧
    (dispatchConv clientInboxId known n ev).2 = 1 := by
  constructor
  · simp [stream]
  · cases n with
    | zero => exact absurd hn (by simp)
    | succ m =>
        have hk' : ev.topic ∉ known := by simpa using hk
        have hd : streamListener clientInboxId known ev
            = ⟨ev.topic :: known, true⟩ := by
          unfold streamListener
          simp [hin, hk']
        have hsup : dispatchConv clientInboxId (ev.topic :: known) m ev
            = (ev.topic :: known, 0) := by
          apply dispatchConv_suppressed
          simp
        simp only [dispatchConv, hd]
        simp [hsup]

/-- C5 witness: the amended theorem at a concrete input. -/
theorem c5_second_stream_leaks_but_dedup_holds_witness :
    (0 < 1 ∧ ([] : List String).contains "t" = false) ∧
    ((stream (stream ConvState.init "A").1 "A").1.emitter
        = ConvState.init.emitter
            ++ [(EventType.conversation, ConvState.init.nextListenerId),
                (EventType.conversation, ConvState.init.nextListenerId + 1)] ∧
      (dispatchConv "A" [] 1 ⟨"A", "t", false⟩).2 = 1) :=
  ⟨⟨by decide, by decide⟩,
    c5_second_stream_leaks_but_dedup_holds ConvState.init "A" "A" [] 1
      ⟨"A", "t", false⟩ (by decide) rfl (by decide)⟩

/-- C6: sending or preparing with an explicit content type whose codec
is absent from the registry fails fast with the `no codec found` error
and an EMPTY gateway trace (no network call); when a codec is
registered, exactly the corresponding gateway call is made. -/
theorem c6_codec_lookup_gates_gateway (g : Group)
    (registry : List (String × String)) (content : String)
    (ct : ContentTypeId) :
    (lookupCodec registry (codecKey ct) = none →
      Group.sendWithJSCodec g registry content ct
          = ([], Except.error ("no codec found for: " ++ codecKey ct)) ∧
      Group.prepareWithJSCodec g registry content ct
          = ([], Except.error ("no codec found for: " ++ codecKey ct))) ∧
    (∀ codec, lookupCodec registry (codecKey ct) = some codec →
      Group.sendWithJSCodec g registry content ct
          = ([GatewayCall.sendWithContentType g.clientInstallationId g.id
                content codec],
              Except.ok ()) ∧
      Group.prepareWithJSCodec g registry content ct
          = ([GatewayCall.prepareMessageWithContentType
                g.clientInstallationId g.id content codec],
              Except.ok ())) := by
  constructor
  · intro h
    constructor <;>
      simp [Group.sendWithJSCodec, Group.prepareWithJSCodec, h]
  · intro codec h
    constructor <;>
      simp [Group.sendWithJSCodec, Group.prepareWithJSCodec, h]

/-- C6 witness: the theorem applied with an empty registry (codec
missing) and with a registry holding the requested codec. -/
theorem c6_codec_lookup_gates_gateway_witness :
    (Group.sendWithJSCodec gExample [] "hi" ctExample
        = ([], Except.error ("no codec found for: " ++ codecKey ctExample)) ∧
      Group.prepareWithJSCodec gExample [] "hi" ctExample
        = ([], Except.error ("no codec found for: " ++ codecKey ctExample))) ∧
    (Group.sendWithJSCodec gExample [(codecKey ctExample, "textCodec")] "hi"
          ctExample
        = ([GatewayCall.sendWithContentType "inst1" "g1" "hi" "textCodec"],
            Except.ok ()) ∧
      Group.prepareWithJSCodec gExample [(codecKey ctExample, "textCodec")]
          "hi" ctExample
        = ([GatewayCall.prepareMessageWithContentType "inst1" "g1" "hi"
              "textCodec"],
            Except.ok ())) :=
  ⟨(c6_codec_lookup_gates_gateway gExample [] "hi" ctExample).1 (by decide),
    (c6_codec_lookup_gates_gateway gExample
        [(codecKey ctExample, "textCodec")] "hi" ctExample).2 "textCodec"
      (by decide)⟩

/-- C7: the listener body contains NO try/catch around
`await callback(...)`: when the application callback rejects while
handling a matching event, the error propagates out of that listener
invocation (the result is `error`, not an `ok` that a catch-and-log in
the listener would produce). The claim that the listener catches and
logs the error is false at this concrete input. -/
theorem c7_counterexample :
    Group.streamMessagesListener gExample cbBoom ⟨"inst1", "g1", "m1"⟩
      = Except.error "boom" := rfl

/-- C7 (amended): an application callback rejection is NOT caught by the
listener — it escapes that single invocation — but every pushed event is
an independent invocation of the still-registered listener, so a
rejection while handling one event does not prevent the callback from
being invoked for the next event: the stream is not terminated. Shown
for both `Group.streamMessages` and `Conversations.streamAllMessages`
(where the event is marked known before the callback runs, so the
failed delivery is also not repeated). -/
theorem c7_callback_failure_isolated (g : Group)
    (cb : String → Except String Unit) (e1 e2 : ConvMsgEvent) (err : String)
    (h1i : e1.installationId = g.clientInstallationId)
    (h1c : e1.conversationId = g.id)
    (h2i : e2.installationId = g.clientInstallationId)
    (h2c : e2.conversationId = g.id)
    (hf : cb e1.message = Except.error err)
    (hs : cb e2.message = Except.ok ())
    (clientInboxId : String) (known : List String)
    (cbm : String → Except String Unit) (m1 m2 : MsgEvent)
    (hm1 : m1.inboxId = clientInboxId) (hm2 : m2.inboxId = clientInboxId)
    (hk1 : known.contains m1.messageId = false)
    (hk2 : known.contains m2.messageId = false)
    (hne : m2.messageId ≠ m1.messageId)
    (hmf : cbm m1.messageId = Except.error err)
    (hms : cbm m2.messageId = Except.ok ()) :
    processMessageEvents g cb [e1, e2]
        = [Except.error err, Except.ok true] ∧
    (processAllMessages clientInboxId cbm known [m1, m2]).2
        = [Except.error err, Except.ok true] := by
  constructor
  · simp [processMessageEvents, Group.streamMessagesListener, h1i, h1c,
      h2i, h2c, hf, hs, Except.map]
  · have hk1' : m1.messageId ∉ known := by simpa using hk1
    have hk2' : m2.messageId ∉ known := by simpa using hk2
    simp [processAllMessages, streamAllMessagesListenerE, hm1, hm2, hk1',
      hk2', hne, hmf, hms, Except.map]

/-- C7 witness: the amended theorem at concrete inputs, with the
callback `cbBoom` rejecting on "m1" and resolving on "m2". -/
theorem c7_callback_failure_isolated_witness :
    (cbBoom "m1" = Except.error "boom" ∧ cbBoom "m2" = Except.ok () ∧
      "m2" ≠ "m1") ∧
    (processMessageEvents gExample cbBoom
        [⟨"inst1", "g1", "m1"⟩, ⟨"inst1", "g1", "m2"⟩]
        = [Except.error "boom", Except.ok true] ∧
      (processAllMessages "A" cbBoom [] [⟨"A", "m1"⟩, ⟨"A", "m2"⟩]).2
        = [Except.error "boom", Except.ok true]) :=
  ⟨⟨rfl, rfl, by decide⟩,
    c7_callback_failure_isolated gExample cbBoom ⟨"inst1", "g1", "m1"⟩
      ⟨"inst1", "g1", "m2"⟩ "boom" rfl rfl rfl rfl rfl rfl "A" [] cbBoom
      ⟨"A", "m1"⟩ ⟨"A", "m2"⟩ rfl rfl rfl rfl (by decide) rfl rfl⟩

/-- C8: cross-client isolation. An event addressed to inbox or
installation identity B, delivered to a listener registered by a client
with identity A ≠ B, invokes no callback and leaves the client's `known`
map untouched: the `streamAllMessages` listener returns the unchanged
map with outcome `ok false` (the callback function is never applied),
and the `Group.streamMessages` listener likewise returns `ok false`. -/
theorem c8_cross_client_isolation (clientInboxId : String)
    (known : List String) (cb : String → Except String Unit) (ev : MsgEvent)
    (g : Group) (cbg : String → Except String Unit) (ev2 : ConvMsgEvent)
    (h : ev.inboxId ≠ clientInboxId)
    (h2 : ev2.installationId ≠ g.clientInstallationId) :
    streamAllMessagesListenerE clientInboxId known cb ev
        = (known, Except.ok false) ∧
    Group.streamMessagesListener g cbg ev2 = Except.ok false := by
  constructor
  · simp [streamAllMessagesListenerE, h]
  · simp [Group.streamMessagesListener, h2]

/-- C8 witness: the theorem at a concrete input, client "A" receiving an
event addressed to "B", and installation "inst1" receiving an event
addressed to "otherInst". -/
theorem c8_cross_client_isolation_witness :
    ("B" ≠ "A" ∧ "otherInst" ≠ "inst1") ∧
    (streamAllMessagesListenerE "A" ["seen"] cbBoom ⟨"B", "m1"⟩
        = (["seen"], Except.ok false) ∧
      Group.streamMessagesListener gExample cbBoom
          ⟨"otherInst", "g1", "m1"⟩ = Except.ok false) :=
  ⟨⟨by decide, by decide⟩,
    c8_cross_client_isolation "A" ["seen"] cbBoom ⟨"B", "m1"⟩ gExample
      cbBoom ⟨"otherInst", "g1", "m1"⟩ (by decide) (by decide)⟩

/-- C9: `encodeToObj` writes `lastMessage` only when the flag is set AND
the group has at least one message: with every field requested but an
empty local message list, the `lastMessage` key is absent although the
options requested it, so the claimed "present iff requested" equivalence
is false at this concrete input. -/
theorem c9_counterexample :
    Wrapper.paramsWithLast.lastMessage = true ∧
    (Wrapper.keysOf (Wrapper.encodeToObj "addr" Wrapper.kgNoMessages
        Wrapper.paramsWithLast)).contains "lastMessage" = false := by
  decide

/-- Membership in a conditional singleton list. -/
theorem mem_ite_singleton {c : Prop} [Decidable c] (x y : String) :
    x ∈ (if c then [y] else []) ↔ c ∧ x = y := by
  by_cases h : c <;> simp [h]

/-- Mapping first projections commutes with a conditional block. -/
theorem map_fst_ite (c : Prop) [Decidable c]
    (l : List (String × Wrapper.JValue)) :
    List.map Prod.fst (if c then l else [])
      = if c then List.map Prod.fst l else [] := by
  by_cases h : c <;> simp [h]

/-- The keys of the encoded map: the five unconditional keys followed by
one conditional key per selection flag; the `lastMessage` key also needs
a non-empty message list. -/
theorem keysOf_encode (a : String) (g : Wrapper.KGroup)
    (p : Wrapper.ConversationParamsWrapper) :
    Wrapper.keysOf (Wrapper.encodeToObj a g p)
      = ["clientAddress", "id", "createdAt", "version", "topic"]
          ++ (if p.isActive then ["isActive"] else [])
          ++ (if p.addedByInboxId then ["addedByInboxId"] else [])
          ++ (if p.name then ["name"] else [])
          ++ (if p.imageUrlSquare then ["imageUrlSquare"] else [])
          ++ (if p.description then ["description"] else [])
          ++ (if p.consentState then ["consentState"] else [])
          ++ (if p.lastMessage = true ∧ g.messages ≠ []
              then ["lastMessage"] else []) := by
  by_cases hl : p.lastMessage <;> cases hm : g.messages <;>
    simp [Wrapper.keysOf, Wrapper.encodeToObj, hl, hm, List.map_append,
      map_fst_ite]

/-- C9 (amended): each of the optional fields isActive, addedByInboxId,
name, imageUrlSquare, description and consentState is present in the
encoded snapshot if and only if its selection flag requests it (fields
not requested are omitted, not defaulted); `lastMessage` is present if
and only if it is requested AND the group's local message list is
non-empty. -/
theorem c9_field_selection (clientAddress : String) (group : Wrapper.KGroup)
    (p : Wrapper.ConversationParamsWrapper) :
    ("isActive" ∈ Wrapper.keysOf (Wrapper.encodeToObj clientAddress group p)
        ↔ p.isActive = true) ∧
    ("addedByInboxId"
          ∈ Wrapper.keysOf (Wrapper.encodeToObj clientAddress group p)
        ↔ p.addedByInboxId = true) ∧
    ("name" ∈ Wrapper.keysOf (Wrapper.encodeToObj clientAddress group p)
        ↔ p.name = true) ∧
    ("imageUrlSquare"
          ∈ Wrapper.keysOf (Wrapper.encodeToObj clientAddress group p)
        ↔ p.imageUrlSquare = true) ∧
    ("description"
          ∈ Wrapper.keysOf (Wrapper.encodeToObj clientAddress group p)
        ↔ p.description = true) ∧
    ("consentState"
          ∈ Wrapper.keysOf (Wrapper.encodeToObj clientAddress group p)
        ↔ p.consentState = true) ∧
    ("lastMessage"
          ∈ Wrapper.keysOf (Wrapper.encodeToObj clientAddress group p)
        ↔ (p.lastMessage = true ∧ group.messages ≠ [])) := by
  refine ⟨?_, ?_, ?_, ?_, ?_, ?_, ?_⟩ <;>
    simp [keysOf_encode, List.mem_append, mem_ite_singleton]
